import Mathlib

/-!
Verification model of the Profile and Configuration Synchronization Engine of
the mcp-configuration-manager repository.

The embedding is a shallow one:

* JSON values that the Electron main process inspects are modelled by the
  inductive type Json.  File contents are modelled by JsText: a content either
  parses to a top-level JSON object (constructor jobj, carrying the parsed
  fields) or fails to parse (constructor raw, carrying the raw text).  Two
  jobj contents are identified when they parse to the same object, which is
  exact for every content the engine itself writes, because the engine always
  writes JSON.stringify output.
* The filesystem is a finite map from paths to contents plus a set of paths
  on which writeFile fails, so that I/O failure of a write is representable.
  mkdir is a no-op on this model.
* The settings file (settings.json) is owned by the engine and is kept as a
  typed record in its own state component; claudePath = none models a file
  without a claudePath key, which is what JSON.stringify produces for an
  undefined-valued property.
* Timestamps are a Nat counter; tsString renders it into the file-name
  timestamp (the real code uses an ISO timestamp at second resolution, the
  only property used here is that the same instant yields the same string).
* The SQLite store (database.ts) is a record of profile rows and
  configuration rows; configuration rows carry a strictly increasing seq
  number standing for created_at, so ORDER BY created_at DESC LIMIT 1 is the
  last appended row for the profile.
-/

/-- JSON values, as far as the main process inspects them. -/
inductive Json where
  | null : Json
  | bool : Bool → Json
  | num : Int → Json
  | str : String → Json
  | arr : List Json → Json
  | obj : List (String × Json) → Json

/-- JavaScript truthiness of a JSON value. -/
def jsTruthy : Json → Bool
  | Json.null => false
  | Json.bool b => b
  | Json.num n => n != 0
  | Json.str s => s ≠ ""
  | Json.arr _ => true
  | Json.obj _ => true

/-- Whether typeof yields the string object for this value (arrays and null
included, as in JavaScript). -/
def jsTypeofObject : Json → Bool
  | Json.null => true
  | Json.arr _ => true
  | Json.obj _ => true
  | _ => false

/-- Length of the array Object.keys would return. -/
def jsKeysLength : Json → Nat
  | Json.obj fields => fields.length
  | Json.arr xs => xs.length
  | Json.str s => s.length
  | _ => 0

/-- Lookup of a key in an association list (property read on a JS object;
JS objects hold at most one binding per key). -/
def assocFind {α : Type} : List (String × α) → String → Option α
  | [], _ => none
  | (k', v') :: rest, k => if k' = k then some v' else assocFind rest k

/-- Property assignment on a JS object: replace the binding in place when the
key is present, append it otherwise.  JS objects hold at most one binding per
key, so replacing the first occurrence is exact. -/
def jsObjInsert {α : Type} : List (String × α) → String → α → List (String × α)
  | [], k, v => [(k, v)]
  | (k', v') :: rest, k, v =>
      if k' = k then (k, v) :: rest else (k', v') :: jsObjInsert rest k v

/-- Reading the mcpServers property of the parsed configuration object,
defaulting to null when absent (property read of a missing key). -/
def jsObjGetD (fields : List (String × Json)) (k : String) : Json :=
  (assocFind fields k).getD Json.null

/-- A file content: either text that JSON.parse turns into a top-level object
with the given fields, or text on which JSON.parse fails (or whose top-level
value is not an object, which the engine never produces). -/
inductive JsText where
  | jobj : List (String × Json) → JsText
  | raw : String → JsText

theorem assocFind_jsObjInsert {α : Type} (l : List (String × α)) (k q : String) (v : α) :
    assocFind (jsObjInsert l k v) q = if q = k then some v else assocFind l q := by
  induction l with
  | nil =>
      by_cases h : q = k
      · subst h; simp [jsObjInsert, assocFind]
      · have h' : ¬ k = q := fun hh => h hh.symm
        simp [jsObjInsert, assocFind, h, h']
  | cons p rest ih =>
      obtain ⟨k', v'⟩ := p
      by_cases hk : k' = k
      · subst hk
        by_cases hq : q = k'
        · subst hq; simp [jsObjInsert, assocFind]
        · have hq' : ¬ k' = q := fun hh => hq hh.symm
          simp [jsObjInsert, assocFind, hq, hq']
      · by_cases hq : q = k'
        · subst hq
          have hk2 : ¬ k = q := fun hh => hk hh.symm
          simp [jsObjInsert, assocFind, hk, hk2]
        · have hq' : ¬ k' = q := fun hh => hq hh.symm
          simp [jsObjInsert, assocFind, hk, hq', ih]

theorem assocFind_jsObjInsert_self {α : Type} (l : List (String × α)) (k : String) (v : α) :
    assocFind (jsObjInsert l k v) k = some v := by
  simp [assocFind_jsObjInsert]

/-! ## Settings Pointer (settings.json, main.ts loadSettings and saveSettings) -/

/-- Default live configuration path of main.ts, the value of
path.join of the appData directory with Claude and the config file name. -/
def DEFAULT_CONFIG_PATH : String := "/appData/Claude/claude_desktop_config.json"

/-- Default backup directory of main.ts. -/
def DEFAULT_BACKUP_PATH : String := "/app/config-backups"

/-- Default backup directory used by database.ts when bootstrapping, the
value of path.join of the userData directory with config-backups. -/
def DB_DEFAULT_BACKUP_PATH : String := "/userData/config-backups"

/-- The parsed content of settings.json.  claudePath = none models a file
without a claudePath key; JSON.stringify drops a property whose value is
undefined, so a key is either present with a string value or absent. -/
structure StoredSettings where
  configPath : String
  backupPath : String
  claudePath : Option String
deriving DecidableEq

/-- The argument of saveSettings: each key may be absent (outer none), or
present; a present claudePath may carry undefined (inner none). -/
structure SettingsUpdate where
  configPath : Option String
  backupPath : Option String
  claudePath : Option (Option String)

/-! ## Filesystem -/

/-- The filesystem: a finite map from paths to contents, plus the set of
paths on which fs.writeFile fails, so a failing write is representable.
Reads of an existing file always succeed; mkdir is modelled as a no-op. -/
structure Fs where
  files : List (String × JsText)
  failPaths : List String

def Fs.read (fs : Fs) (p : String) : Option JsText :=
  assocFind fs.files p

/-- fs.writeFile: fails on a registered failure path, otherwise replaces or
creates the file (an existing file at the path is overwritten). -/
def Fs.write (fs : Fs) (p : String) (c : JsText) : Except Unit Fs :=
  if fs.failPaths.contains p then Except.error ()
  else Except.ok { fs with files := jsObjInsert fs.files p c }

/-! ## Profile Store (database.ts) -/

/-- A row of the profiles table. -/
structure Profile where
  id : Nat
  name : String
  config_path : String
  backup_path : String
  mcp_client_path : Option String
deriving DecidableEq

/-- A row of the configurations table.  seq is a strictly increasing counter
standing for created_at, so rows for a profile appear in creation order. -/
structure Snapshot where
  profile_id : Nat
  content : JsText
  seq : Nat

/-- The SQLite store: both tables plus the AUTOINCREMENT and ordering
counters. -/
structure Db where
  profiles : List Profile
  snapshots : List Snapshot
  nextId : Nat
  nextSeq : Nat

/-- SELECT star FROM profiles WHERE id = ?. -/
def Db.getProfile (db : Db) (id : Nat) : Option Profile :=
  db.profiles.find? (fun p => p.id = id)

/-- INSERT INTO profiles: the UNIQUE constraint on name makes the insert
throw on a duplicate name, leaving the table unchanged. -/
def Db.createProfile (db : Db) (name configPath backupPath : String)
    (mcpClientPath : Option String) : Except String Nat × Db :=
  if db.profiles.any (fun p => p.name = name) then
    (Except.error "UNIQUE constraint failed: profiles.name", db)
  else
    (Except.ok db.nextId,
     { db with
        profiles := db.profiles ++
          [{ id := db.nextId, name := name, config_path := configPath,
             backup_path := backupPath, mcp_client_path := mcpClientPath }],
        nextId := db.nextId + 1 })

/-- INSERT INTO configurations: rows reference profiles with a foreign key
and PRAGMA foreign_keys is ON, so inserting for an absent profile throws. -/
def Db.saveConfiguration (db : Db) (profileId : Nat) (content : JsText) :
    Except String Db :=
  if db.profiles.any (fun p => p.id = profileId) then
    Except.ok { db with
      snapshots := db.snapshots ++
        [{ profile_id := profileId, content := content, seq := db.nextSeq }],
      nextSeq := db.nextSeq + 1 }
  else Except.error "FOREIGN KEY constraint failed"

/-- SELECT content FROM configurations WHERE profile_id = ? ORDER BY
created_at DESC LIMIT 1: rows are stored in creation order, so this is the
last row for the profile. -/
def Db.getLatestConfiguration (db : Db) (profileId : Nat) : Option JsText :=
  ((db.snapshots.filter (fun s => s.profile_id = profileId)).getLast?).map
    Snapshot.content

/-- DELETE FROM profiles WHERE id = ?; ON DELETE CASCADE with
PRAGMA foreign_keys ON also deletes the configurations of the profile. -/
def Db.deleteProfile (db : Db) (id : Nat) : Db :=
  { db with
    profiles := db.profiles.filter (fun p => ¬ p.id = id),
    snapshots := db.snapshots.filter (fun s => ¬ s.profile_id = id) }

/-! ## Whole-system state -/

/-- The state the Engine acts on: the store, the filesystem, the parsed
settings.json (none when the file is absent or unreadable) and the parsed
preferences.json lastOpenedFile field. -/
structure SysState where
  db : Db
  fs : Fs
  settings : Option StoredSettings
  lastOpenedFile : Option String

/-- main.ts loadSettings: read and parse settings.json, falling back to the
defaults when that fails. -/
def loadSettings (st : SysState) : StoredSettings :=
  match st.settings with
  | some s => s
  | none =>
      { configPath := DEFAULT_CONFIG_PATH,
        backupPath := DEFAULT_BACKUP_PATH,
        claudePath := some "" }

/-- main.ts saveSettings: load the current settings, merge the update over
them with object spread (a key present in the update wins, even with an
undefined value), and write the JSON text back; JSON.stringify drops an
undefined-valued claudePath, leaving the key absent. -/
def saveSettings (upd : SettingsUpdate) (st : SysState) : SysState :=
  let current := loadSettings st
  let merged : StoredSettings :=
    { configPath := upd.configPath.getD current.configPath,
      backupPath := upd.backupPath.getD current.backupPath,
      claudePath :=
        match upd.claudePath with
        | none => current.claudePath
        | some v => v }
  { st with settings := some merged }

/-- main.ts savePreferences. -/
def savePreferences (lastOpenedFile : Option String) (st : SysState) : SysState :=
  { st with lastOpenedFile := lastOpenedFile }

/-- The JS expression x OR undefined for a string-or-null x: null or the
empty string become undefined. -/
def jsOrUndefined : Option String → Option String
  | some s => if s = "" then none else some s
  | none => none

/-! ## Backup Manager (main.ts createBackup) -/

/-- The part of the file path after the last slash (path.basename). -/
def basename (p : String) : String :=
  String.mk ((p.toList.reverse.takeWhile (fun c => ¬ c = '/')).reverse)

/-- Split a file name at its last dot into path.parse name and ext (the ext
keeps the dot; a name without a dot has an empty ext). -/
def splitExt (n : String) : String × String :=
  let rev := n.toList.reverse
  let revExt := rev.takeWhile (fun c => ¬ c = '.')
  if revExt.length = rev.length then (n, "")
  else
    (String.mk ((rev.drop (revExt.length + 1)).reverse),
     String.mk ('.' :: revExt.reverse))

/-- The file-name timestamp new Date toISOString with colons replaced and
the fractional part removed, at second resolution; modelled as the decimal
rendering of the Nat instant, whose only used property is that equal
instants yield equal strings. -/
def tsString (now : Nat) : String := toString now

/-- The generated backup file name, stem underscore timestamp ext. -/
def backupFileNameFor (filePath : String) (now : Nat) : String :=
  let fileName := basename filePath
  (splitExt fileName).1 ++ "_" ++ tsString now ++ (splitExt fileName).2

/-- path.join of the backup directory and the generated file name. -/
def joinPath (dir name : String) : String := dir ++ "/" ++ name

/-- The backup directory createBackup resolves: the settings backupPath, or
the default when that is falsy. -/
def resolvedBackupDir (st : SysState) : String :=
  if (loadSettings st).backupPath = "" then DEFAULT_BACKUP_PATH
  else (loadSettings st).backupPath

/-- main.ts createBackup: resolve the backup directory, create it if absent,
read the source file, derive the timestamped name and write a copy there;
any thrown error is caught and reported as a failure result.  On success it
returns the backup file path and the new filesystem. -/
def createBackup (filePath : String) (now : Nat) (st : SysState) :
    Except Unit String × Fs :=
  match st.fs.read filePath with
  | none => (Except.error (), st.fs)
  | some content =>
      match st.fs.write (joinPath (resolvedBackupDir st)
          (backupFileNameFor filePath now)) content with
      | Except.error _ => (Except.error (), st.fs)
      | Except.ok fs1 =>
          (Except.ok (joinPath (resolvedBackupDir st)
            (backupFileNameFor filePath now)), fs1)

/-! ## Synchronization Engine (main.ts switch-profile handlers) -/

/-- Step normalizing the parsed profile configuration: when mcpServers is
missing, falsy or not object-typed, an empty object is assigned to it. -/
def ensureMcpServers (fields : List (String × Json)) : List (String × Json) :=
  match assocFind fields "mcpServers" with
  | some v =>
      if jsTruthy v ∧ jsTypeofObject v then fields
      else jsObjInsert fields "mcpServers" (Json.obj [])
  | none => jsObjInsert fields "mcpServers" (Json.obj [])

/-- Merge-preserve step of the first switch-profile handler: re-read the
live file after the backup; when it parses and its mcpServers is truthy with
at least one key while the incoming mcpServers has none, substitute the
existing value; a parse failure of the live file is tolerated and the
incoming configuration is kept. -/
def mergePreserve (configObject : List (String × Json)) (existing : JsText) :
    List (String × Json) :=
  match existing with
  | JsText.raw _ => configObject
  | JsText.jobj existingFields =>
      match assocFind existingFields "mcpServers" with
      | some ev =>
          if jsTruthy ev ∧ jsKeysLength ev > 0 ∧
             jsKeysLength (jsObjGetD configObject "mcpServers") = 0 then
            jsObjInsert configObject "mcpServers" ev
          else configObject
      | none => configObject

/-- Tail of the first switch-profile handler after the backup and merge
steps: serialize and write the final content to the config path, update the
settings with the paths of the profile, update the preferences, and save the
final content back to the profile as a new configuration row. -/
def finishSwitch (id : Nat) (profile : Profile)
    (configObject : List (String × Json)) (st : SysState) :
    Except String Unit × SysState :=
  let finalContent := JsText.jobj configObject
  match st.fs.write profile.config_path finalContent with
  | Except.error _ => (Except.error "write failed", st)
  | Except.ok fs2 =>
      let st1 := saveSettings
        { configPath := some profile.config_path,
          backupPath := some profile.backup_path,
          claudePath := some (jsOrUndefined profile.mcp_client_path) }
        { st with fs := fs2 }
      let st2 := savePreferences (some profile.config_path) st1
      match st2.db.saveConfiguration id finalContent with
      | Except.ok db2 => (Except.ok (), { st2 with db := db2 })
      | Except.error e => (Except.error e, st2)

/-- First switch-profile handler of main.ts (the version with the
merge-preserve rule and the final saveConfiguration): load the profile and
its latest configuration, parse it, normalize mcpServers, back up the live
file when it exists and abort on backup failure, apply the merge-preserve
rule, then write, update settings and preferences, and append the written
text as a new configuration row. -/
def switchProfile (id : Nat) (now : Nat) (st : SysState) :
    Except String Unit × SysState :=
  match st.db.getProfile id with
  | none => (Except.error "Profile not found", st)
  | some profile =>
      match st.db.getLatestConfiguration id with
      | none => (Except.error "No configuration found for this profile", st)
      | some (JsText.raw _) => (Except.error "Invalid configuration format", st)
      | some (JsText.jobj parsedFields) =>
          let configObject := ensureMcpServers parsedFields
          match st.fs.read profile.config_path with
          | some _ =>
              match createBackup profile.config_path now st with
              | (Except.error _, _) => (Except.error "Failed to create backup", st)
              | (Except.ok _, fs1) =>
                  let stB := { st with fs := fs1 }
                  let merged :=
                    match stB.fs.read profile.config_path with
                    | none => configObject
                    | some existing => mergePreserve configObject existing
                  finishSwitch id profile merged stB
          | none => finishSwitch id profile configObject st

/-- Tail of the second switch-profile handler: write the final content,
update settings and preferences; this version appends no configuration row. -/
def finishSwitchSecond (profile : Profile)
    (configObject : List (String × Json)) (st : SysState) :
    Except String Unit × SysState :=
  let finalContent := JsText.jobj configObject
  match st.fs.write profile.config_path finalContent with
  | Except.error _ => (Except.error "write failed", st)
  | Except.ok fs2 =>
      let st1 := saveSettings
        { configPath := some profile.config_path,
          backupPath := some profile.backup_path,
          claudePath := some (jsOrUndefined profile.mcp_client_path) }
        { st with fs := fs2 }
      (Except.ok (), savePreferences (some profile.config_path) st1)

/-- Second switch-profile handler of main.ts: identical to the first up to
the backup, but with no merge-preserve step and no saveConfiguration call
after the write. -/
def switchProfileSecond (id : Nat) (now : Nat) (st : SysState) :
    Except String Unit × SysState :=
  match st.db.getProfile id with
  | none => (Except.error "Profile not found", st)
  | some profile =>
      match st.db.getLatestConfiguration id with
      | none => (Except.error "No configuration found for this profile", st)
      | some (JsText.raw _) => (Except.error "Invalid configuration format", st)
      | some (JsText.jobj parsedFields) =>
          let configObject := ensureMcpServers parsedFields
          match st.fs.read profile.config_path with
          | some _ =>
              match createBackup profile.config_path now st with
              | (Except.error _, _) => (Except.error "Failed to create backup", st)
              | (Except.ok _, fs1) =>
                  finishSwitchSecond profile configObject { st with fs := fs1 }
          | none => finishSwitchSecond profile configObject st

/-! ## Bootstrap (database.ts ensureDefaultProfile) -/

/-- Seed content for the Default profile: the content already present at the
default config path when it parses and its mcpServers is truthy and
object-typed, the empty-document text otherwise (also on read or parse
errors, which are caught). -/
def seedContent (fs : Fs) : JsText :=
  match fs.read DEFAULT_CONFIG_PATH with
  | some (JsText.jobj fields) =>
      match assocFind fields "mcpServers" with
      | some v =>
          if jsTruthy v ∧ jsTypeofObject v then JsText.jobj fields
          else JsText.jobj [("mcpServers", Json.obj [])]
      | none => JsText.jobj [("mcpServers", Json.obj [])]
  | some (JsText.raw _) => JsText.jobj [("mcpServers", Json.obj [])]
  | none => JsText.jobj [("mcpServers", Json.obj [])]

/-- database.ts ensureDefaultProfile: when the store holds zero profiles,
create the profile Default with the default paths and save a seed
configuration for it; otherwise do nothing. -/
def ensureDefaultProfile (db : Db) (fs : Fs) : Db :=
  if db.profiles.length = 0 then
    let r := db.createProfile "Default" DEFAULT_CONFIG_PATH DB_DEFAULT_BACKUP_PATH none
    match r.1 with
    | Except.error _ => r.2
    | Except.ok profileId =>
        match r.2.saveConfiguration profileId (seedContent fs) with
        | Except.ok db2 => db2
        | Except.error _ => r.2
  else db

/-! ## Configuration Document Model (renderer, generateRawConfigText and
loadConfigFromContent) -/

/-- An in-memory server entry of the renderer (interface Component): env is
optional in the interface, and absent env is representable. -/
structure Component where
  name : String
  command : String
  args : List String
  env : Option (List (String × String))
deriving DecidableEq

/-- The recognized fields of one serialized server value: what
generateRawConfigText emits per server, and what loadConfigFromContent
reads back.  The JSON text layer, JSON.stringify and JSON.parse, is the
identity on this typed shape. -/
structure RawServerEntry where
  command : String
  args : List String
  env : Option (List (String × String))
deriving DecidableEq

/-- Per-component serialization of generateRawConfigText: arguments of
positive length are kept, and the env key is spread in only when env is
truthy with at least one key. -/
def componentToEntry (c : Component) : RawServerEntry :=
  { command := c.command,
    args := c.args.filter (fun arg => arg.length > 0),
    env :=
      match c.env with
      | some e => if e.length > 0 then some e else none
      | none => none }

/-- The mcpServers object built by the reduce of generateRawConfigText:
property assignment per component into an initially empty object. -/
def generateRawConfigServers (components : List Component) :
    List (String × RawServerEntry) :=
  components.foldl (fun acc c => jsObjInsert acc c.name (componentToEntry c)) []

/-- Per-entry conversion of loadConfigFromContent: command falls back to the
empty string (the identity on string-valued commands), args is kept when it
is an array (always, on this typed shape), and env falls back to the empty
object, so env is always present afterwards. -/
def entryToComponent (p : String × RawServerEntry) : Component :=
  { name := p.1,
    command := p.2.command,
    args := p.2.args,
    env := some (p.2.env.getD []) }

/-- Conversion of the mcpServers object entries into components, as done by
the Object.entries map of loadConfigFromContent. -/
def loadConfigComponents (mcpServers : List (String × RawServerEntry)) :
    List Component :=
  mcpServers.map entryToComponent

/-! ## Store lemmas -/

theorem getProfile_any (db : Db) (id : Nat) (p : Profile)
    (h : db.getProfile id = some p) :
    db.profiles.any (fun q => q.id = id) = true := by
  unfold Db.getProfile at h
  have h1 := List.mem_of_find?_eq_some h
  have h2 := List.find?_some h
  exact List.any_eq_true.mpr ⟨p, h1, h2⟩

theorem saveConfiguration_ok (db : Db) (id : Nat) (c : JsText)
    (h : db.profiles.any (fun q => q.id = id) = true) :
    db.saveConfiguration id c =
      Except.ok { db with
        snapshots := db.snapshots ++ [⟨id, c, db.nextSeq⟩],
        nextSeq := db.nextSeq + 1 } := by
  simp [Db.saveConfiguration, h]

theorem getLatest_after_append (db : Db) (id : Nat) (c : JsText) (n m : Nat) :
    Db.getLatestConfiguration
      { db with snapshots := db.snapshots ++ [⟨id, c, n⟩], nextSeq := m } id
      = some c := by
  simp [Db.getLatestConfiguration, List.filter_append, List.filter,
    List.getLast?_concat]

theorem filter_erase_filter (l : List Snapshot) (id : Nat) :
    (l.filter (fun s => ¬ s.profile_id = id)).filter
      (fun s => s.profile_id = id) = [] := by
  induction l with
  | nil => rfl
  | cons s rest ih =>
      by_cases h : s.profile_id = id <;> simp [List.filter, h, ih]

/-- C7: creating a profile with a name that already exists in the store
fails with the UNIQUE constraint error and leaves the store, in particular
its set and count of profiles, unchanged. -/
theorem createProfile_duplicate_rejected (db : Db) (name cp bp : String)
    (mcp : Option String)
    (h : db.profiles.any (fun p => p.name = name) = true) :
    (db.createProfile name cp bp mcp).1 =
      Except.error "UNIQUE constraint failed: profiles.name" ∧
    (db.createProfile name cp bp mcp).2 = db := by
  simp [Db.createProfile, h]

theorem createProfile_duplicate_rejected_witness :
    (Db.createProfile ⟨[⟨1, "A", "/c", "/b", none⟩], [], 2, 0⟩ "A" "/c2" "/b2" none).1 =
      Except.error "UNIQUE constraint failed: profiles.name" ∧
    (Db.createProfile ⟨[⟨1, "A", "/c", "/b", none⟩], [], 2, 0⟩ "A" "/c2" "/b2" none).2 =
      ⟨[⟨1, "A", "/c", "/b", none⟩], [], 2, 0⟩ :=
  createProfile_duplicate_rejected ⟨[⟨1, "A", "/c", "/b", none⟩], [], 2, 0⟩
    "A" "/c2" "/b2" none (by decide)

/-- C8: deleting a profile removes, through the foreign-key cascade, every
configuration row owned by it, and getLatestConfiguration for the deleted id
subsequently returns none. -/
theorem deleteProfile_cascades (db : Db) (id : Nat) :
    (db.deleteProfile id).snapshots.filter (fun s => s.profile_id = id) = [] ∧
    (db.deleteProfile id).getLatestConfiguration id = none := by
  constructor
  · exact filter_erase_filter db.snapshots id
  · simp [Db.getLatestConfiguration, Db.deleteProfile,
      filter_erase_filter db.snapshots id]

/-- C9: initializing a store that holds zero profiles creates exactly one
profile, named Default, and seeds it with one snapshot whose content is the
content at the default config path when that parses with a truthy
object-typed mcpServers, and the empty document otherwise; initializing a
store that already holds profiles changes nothing. -/
theorem bootstrapDefaultProfile (db : Db) (fs : Fs) :
    (db.profiles = [] →
      (ensureDefaultProfile db fs).profiles.length = 1 ∧
      ((ensureDefaultProfile db fs).profiles.map Profile.name = ["Default"]) ∧
      (ensureDefaultProfile db fs).getLatestConfiguration db.nextId =
        some (seedContent fs)) ∧
    (db.profiles ≠ [] → ensureDefaultProfile db fs = db) := by
  constructor
  · intro h
    have hlen : db.profiles.length = 0 := by simp [h]
    have hany : db.profiles.any (fun p => p.name = "Default") = false := by
      simp [h]
    have hcreate :
        db.createProfile "Default" DEFAULT_CONFIG_PATH DB_DEFAULT_BACKUP_PATH none =
          (Except.ok db.nextId,
           { db with
              profiles := db.profiles ++
                [{ id := db.nextId, name := "Default",
                   config_path := DEFAULT_CONFIG_PATH,
                   backup_path := DB_DEFAULT_BACKUP_PATH,
                   mcp_client_path := none }],
              nextId := db.nextId + 1 }) := by
      simp [Db.createProfile, hany]
    have hany2 :
        ({ db with
            profiles := db.profiles ++
              [{ id := db.nextId, name := "Default",
                 config_path := DEFAULT_CONFIG_PATH,
                 backup_path := DB_DEFAULT_BACKUP_PATH,
                 mcp_client_path := none }],
            nextId := db.nextId + 1 } : Db).profiles.any
          (fun q => q.id = db.nextId) = true := by
      simp
    unfold ensureDefaultProfile
    rw [if_pos hlen, hcreate]
    simp only []
    rw [saveConfiguration_ok _ _ _ hany2]
    refine ⟨by simp [h], by simp [h], ?_⟩
    exact getLatest_after_append _ _ _ _ _
  · intro h
    have hlen : ¬ db.profiles.length = 0 := by
      simpa [List.length_eq_zero] using h
    simp [ensureDefaultProfile, hlen]

theorem bootstrapDefaultProfile_witness :
    (ensureDefaultProfile ⟨[], [], 1, 0⟩ ⟨[], []⟩).profiles.length = 1 ∧
    (ensureDefaultProfile ⟨[⟨1, "x", "/c", "/b", none⟩], [], 2, 0⟩ ⟨[], []⟩ =
      ⟨[⟨1, "x", "/c", "/b", none⟩], [], 2, 0⟩) :=
  ⟨((bootstrapDefaultProfile ⟨[], [], 1, 0⟩ ⟨[], []⟩).1 rfl).1,
   (bootstrapDefaultProfile ⟨[⟨1, "x", "/c", "/b", none⟩], [], 2, 0⟩ ⟨[], []⟩).2
     (by simp)⟩

/-! ## Backup Manager lemmas and claims -/

theorem createBackup_ok_spec (filePath : String) (now : Nat) (st : SysState)
    (bfp : String) (fs1 : Fs)
    (h : createBackup filePath now st = (Except.ok bfp, fs1)) :
    bfp = joinPath (resolvedBackupDir st) (backupFileNameFor filePath now) ∧
    fs1.read bfp = st.fs.read filePath ∧
    (∀ q, ¬ q = bfp → fs1.read q = st.fs.read q) ∧
    fs1.failPaths = st.fs.failPaths := by
  by_cases hc : joinPath (resolvedBackupDir st) (backupFileNameFor filePath now)
      ∈ st.fs.failPaths
  · cases hr : st.fs.read filePath with
    | none => simp [createBackup, hr] at h
    | some content => simp [createBackup, Fs.write, hr, hc] at h
  · cases hr : st.fs.read filePath with
    | none => simp [createBackup, hr] at h
    | some content =>
        simp [createBackup, Fs.write, hr, hc] at h
        obtain ⟨h1, h2⟩ := h
        subst h1
        subst h2
        refine ⟨rfl, ?_, ?_, rfl⟩
        · exact assocFind_jsObjInsert_self st.fs.files _ content
        · intro q hq
          show assocFind (jsObjInsert st.fs.files _ content) q = _
          rw [assocFind_jsObjInsert, if_neg hq]
          rfl

theorem createBackup_error_state (filePath : String) (now : Nat) (st : SysState)
    (fsb : Fs) (h : createBackup filePath now st = (Except.error (), fsb)) :
    fsb = st.fs := by
  by_cases hc : joinPath (resolvedBackupDir st) (backupFileNameFor filePath now)
      ∈ st.fs.failPaths
  · cases hr : st.fs.read filePath with
    | none =>
        simp only [createBackup, hr, Prod.mk.injEq] at h
        exact h.2.symm
    | some content =>
        simp [createBackup, Fs.write, hr, hc] at h
        exact h.symm
  · cases hr : st.fs.read filePath with
    | none =>
        simp only [createBackup, hr, Prod.mk.injEq] at h
        exact h.2.symm
    | some content =>
        simp [createBackup, Fs.write, hr, hc] at h

/-- C5 counterexample: with backup directory /bk from the settings, source
file /c/a.json holding the text new, and a backup file of the generated name
/bk/a_7.json already holding the text old, a backup call at instant 7
succeeds and leaves the text new at /bk/a_7.json: the existing backup file
of the same generated name was overwritten, against the claim. -/
theorem createBackup_no_overwrite_counterexample :
    (Fs.read ⟨[("/c/a.json", JsText.raw "new"), ("/bk/a_7.json", JsText.raw "old")], []⟩
        "/bk/a_7.json" = some (JsText.raw "old")) ∧
    ((createBackup "/c/a.json" 7
        ⟨⟨[], [], 0, 0⟩,
         ⟨[("/c/a.json", JsText.raw "new"), ("/bk/a_7.json", JsText.raw "old")], []⟩,
         some ⟨"/c/a.json", "/bk", none⟩, none⟩).1 = Except.ok "/bk/a_7.json") ∧
    ((createBackup "/c/a.json" 7
        ⟨⟨[], [], 0, 0⟩,
         ⟨[("/c/a.json", JsText.raw "new"), ("/bk/a_7.json", JsText.raw "old")], []⟩,
         some ⟨"/c/a.json", "/bk", none⟩, none⟩).2.read "/bk/a_7.json" =
      some (JsText.raw "new")) ∧
    ¬ ((createBackup "/c/a.json" 7
        ⟨⟨[], [], 0, 0⟩,
         ⟨[("/c/a.json", JsText.raw "new"), ("/bk/a_7.json", JsText.raw "old")], []⟩,
         some ⟨"/c/a.json", "/bk", none⟩, none⟩).2.read "/bk/a_7.json" =
      some (JsText.raw "old")) := by
  refine ⟨rfl, rfl, rfl, ?_⟩
  intro hcontra
  have h1 : some (JsText.raw "new") = some (JsText.raw "old") := hcontra
  injection h1 with h2
  injection h2 with h3
  exact absurd h3 (by decide)

/-- C5 amended: every successful backup call writes the byte-identical copy
of the source under the derived name, stem underscore timestamp ext, inside
the resolved backup directory; when a file of that generated name already
exists there it is silently overwritten (a timestamp collision therefore
replaces the earlier backup). -/
theorem createBackup_writes_derived_name (filePath : String) (now : Nat)
    (st : SysState) (bfp : String) (fs1 : Fs)
    (h : createBackup filePath now st = (Except.ok bfp, fs1)) :
    bfp = joinPath (resolvedBackupDir st) (backupFileNameFor filePath now) ∧
    fs1.read bfp = st.fs.read filePath :=
  ⟨(createBackup_ok_spec filePath now st bfp fs1 h).1,
   (createBackup_ok_spec filePath now st bfp fs1 h).2.1⟩

theorem createBackup_writes_derived_name_witness :
    ("/bk/a_7.json" =
      joinPath
        (resolvedBackupDir
          ⟨⟨[], [], 0, 0⟩,
           ⟨[("/c/a.json", JsText.raw "new"), ("/bk/a_7.json", JsText.raw "old")], []⟩,
           some ⟨"/c/a.json", "/bk", none⟩, none⟩)
        (backupFileNameFor "/c/a.json" 7)) ∧
    Fs.read ⟨[("/c/a.json", JsText.raw "new"), ("/bk/a_7.json", JsText.raw "new")], []⟩
        "/bk/a_7.json" =
      Fs.read ⟨[("/c/a.json", JsText.raw "new"), ("/bk/a_7.json", JsText.raw "old")], []⟩
        "/c/a.json" :=
  createBackup_writes_derived_name "/c/a.json" 7
    ⟨⟨[], [], 0, 0⟩,
     ⟨[("/c/a.json", JsText.raw "new"), ("/bk/a_7.json", JsText.raw "old")], []⟩,
     some ⟨"/c/a.json", "/bk", none⟩, none⟩
    "/bk/a_7.json"
    ⟨[("/c/a.json", JsText.raw "new"), ("/bk/a_7.json", JsText.raw "new")], []⟩
    rfl

/-! ## Document model round trip -/

theorem jsObjInsert_fresh {α : Type} (l : List (String × α)) (k : String) (v : α)
    (h : ¬ k ∈ l.map Prod.fst) : jsObjInsert l k v = l ++ [(k, v)] := by
  induction l with
  | nil => rfl
  | cons p rest ih =>
      obtain ⟨k', v'⟩ := p
      have h1 : ¬ k' = k := fun hh => h (by simp [hh])
      have h2 : ¬ k ∈ rest.map Prod.fst := fun hh => h (by simp [hh])
      simp [jsObjInsert, h1, ih h2]

theorem generateRawConfigServers_foldl (cs : List Component)
    (acc : List (String × RawServerEntry))
    (hnd : (cs.map Component.name).Nodup)
    (hacc : ∀ c ∈ cs, ¬ c.name ∈ acc.map Prod.fst) :
    cs.foldl (fun acc c => jsObjInsert acc c.name (componentToEntry c)) acc
      = acc ++ cs.map (fun c => (c.name, componentToEntry c)) := by
  induction cs generalizing acc with
  | nil => simp
  | cons c rest ih =>
      simp only [List.foldl_cons]
      rw [jsObjInsert_fresh _ _ _ (hacc c (by simp))]
      have hnd' : (rest.map Component.name).Nodup := (List.nodup_cons.mp hnd).2
      have hacc' : ∀ d ∈ rest,
          ¬ d.name ∈ (acc ++ [(c.name, componentToEntry c)]).map Prod.fst := by
        intro d hd hmem
        simp only [List.map_append, List.mem_append] at hmem
        rcases hmem with hmem | hmem
        · exact hacc d (by simp [hd]) hmem
        · simp at hmem
          have hcn : c.name ∈ rest.map Component.name :=
            List.mem_map.mpr ⟨d, hd, hmem⟩
          exact (List.nodup_cons.mp hnd).1 hcn
      rw [ih (acc ++ [(c.name, componentToEntry c)]) hnd' hacc']
      simp

theorem map_self_of_forall {α : Type} (l : List α) (f : α → α)
    (h : ∀ a ∈ l, f a = a) : l.map f = l := by
  induction l with
  | nil => rfl
  | cons a r ih => simp [h a (by simp), ih (fun b hb => h b (by simp [hb]))]

theorem entry_roundtrip (c : Component)
    (hargs : ∀ a ∈ c.args, 0 < a.length) (henv : c.env.isSome = true) :
    entryToComponent (c.name, componentToEntry c) = c := by
  obtain ⟨n, cmd, args, env⟩ := c
  cases env with
  | none => simp at henv
  | some e =>
      unfold entryToComponent componentToEntry
      simp only [Component.mk.injEq, true_and]
      constructor
      · exact List.filter_eq_self.mpr (fun a ha => decide_eq_true (hargs a ha))
      · cases e with
        | nil => simp
        | cons x xs => simp

/-- C6 counterexample: the single-server document with command x, the
argument list holding one empty string, and env absent does not round-trip:
serialization drops the empty argument and parsing materializes env as the
empty map, so the parsed document differs from the original. -/
theorem parseSerializedRoundTrip_counterexample :
    ¬ (loadConfigComponents
        (generateRawConfigServers [⟨"a", "x", [""], none⟩]) =
      [⟨"a", "x", [""], none⟩]) := by
  decide

/-- C6 amended: for any document whose server names are pairwise distinct
and whose entries have a string command, a string argument list with every
argument non-empty, and an env map that is present (possibly empty),
parsing the serialized form yields the document back unchanged.  The claim
as frozen also admitted empty-string arguments and absent env; serialization
filters out empty arguments and parsing replaces an absent env with the
empty map, so those two cases had to be excluded. -/
theorem parseSerializedRoundTrip (cs : List Component)
    (hnames : (cs.map Component.name).Nodup)
    (hargs : ∀ c ∈ cs, ∀ a ∈ c.args, 0 < a.length)
    (henv : ∀ c ∈ cs, c.env.isSome = true) :
    loadConfigComponents (generateRawConfigServers cs) = cs := by
  have hmap : generateRawConfigServers cs =
      cs.map (fun c => (c.name, componentToEntry c)) := by
    have := generateRawConfigServers_foldl cs [] hnames
      (by intro c hc hmem; simp at hmem)
    simpa [generateRawConfigServers] using this
  rw [hmap]
  unfold loadConfigComponents
  rw [List.map_map]
  exact map_self_of_forall cs _
    (fun c hc => entry_roundtrip c (hargs c hc) (henv c hc))

theorem parseSerializedRoundTrip_witness :
    loadConfigComponents
        (generateRawConfigServers [⟨"a", "x", ["y"], some [("K", "V")]⟩]) =
      [⟨"a", "x", ["y"], some [("K", "V")]⟩] :=
  parseSerializedRoundTrip [⟨"a", "x", ["y"], some [("K", "V")]⟩]
    (by decide) (by decide) (by decide)

/-! ## Engine lemmas -/

theorem fs_write_ok_read (fs : Fs) (p : String) (c : JsText) (fs2 : Fs)
    (h : fs.write p c = Except.ok fs2) : fs2.read p = some c := by
  unfold Fs.write at h
  by_cases hc : fs.failPaths.contains p = true
  · rw [if_pos hc] at h; cases h
  · rw [if_neg hc] at h
    injection h with h1
    subst h1
    exact assocFind_jsObjInsert_self fs.files p c

theorem finishSwitch_eq_ok (id : Nat) (profile : Profile)
    (cfg : List (String × Json)) (st : SysState) (fs2 : Fs)
    (hp : st.db.profiles.any (fun q => q.id = id) = true)
    (hw : st.fs.write profile.config_path (JsText.jobj cfg) = Except.ok fs2) :
    finishSwitch id profile cfg st =
      (Except.ok (),
       { db := { st.db with
            snapshots := st.db.snapshots ++
              [⟨id, JsText.jobj cfg, st.db.nextSeq⟩],
            nextSeq := st.db.nextSeq + 1 },
         fs := fs2,
         settings := some ⟨profile.config_path, profile.backup_path,
           jsOrUndefined profile.mcp_client_path⟩,
         lastOpenedFile := some profile.config_path }) := by
  unfold finishSwitch
  dsimp only
  rw [hw]
  simp only [saveSettings, savePreferences, loadSettings, Option.getD_some]
  rw [saveConfiguration_ok _ _ _ hp]

theorem finishSwitch_eq_err (id : Nat) (profile : Profile)
    (cfg : List (String × Json)) (st : SysState)
    (hw : st.fs.write profile.config_path (JsText.jobj cfg) = Except.error ()) :
    finishSwitch id profile cfg st = (Except.error "write failed", st) := by
  unfold finishSwitch
  dsimp only
  rw [hw]

theorem finishSwitchSecond_eq_ok (profile : Profile)
    (cfg : List (String × Json)) (st : SysState) (fs2 : Fs)
    (hw : st.fs.write profile.config_path (JsText.jobj cfg) = Except.ok fs2) :
    finishSwitchSecond profile cfg st =
      (Except.ok (),
       { db := st.db,
         fs := fs2,
         settings := some ⟨profile.config_path, profile.backup_path,
           jsOrUndefined profile.mcp_client_path⟩,
         lastOpenedFile := some profile.config_path }) := by
  unfold finishSwitchSecond
  dsimp only
  rw [hw]
  simp only [saveSettings, savePreferences, loadSettings, Option.getD_some]

theorem finishSwitchSecond_eq_err (profile : Profile)
    (cfg : List (String × Json)) (st : SysState)
    (hw : st.fs.write profile.config_path (JsText.jobj cfg) = Except.error ()) :
    finishSwitchSecond profile cfg st = (Except.error "write failed", st) := by
  unfold finishSwitchSecond
  dsimp only
  rw [hw]

theorem createBackup_ok_read_source (filePath : String) (now : Nat)
    (st : SysState) (bfp : String) (fs1 : Fs)
    (h : createBackup filePath now st = (Except.ok bfp, fs1)) :
    fs1.read filePath = st.fs.read filePath := by
  obtain ⟨h1, h2, h3, h4⟩ := createBackup_ok_spec filePath now st bfp fs1 h
  by_cases hq : filePath = bfp
  · subst hq; exact h2
  · exact h3 filePath hq

theorem finishSwitch_ok_spec (id : Nat) (p : Profile)
    (cfg : List (String × Json)) (st st' : SysState)
    (hp : st.db.profiles.any (fun q => q.id = id) = true)
    (hok : finishSwitch id p cfg st = (Except.ok (), st')) :
    st'.settings = some ⟨p.config_path, p.backup_path,
      jsOrUndefined p.mcp_client_path⟩ ∧
    st'.db.getLatestConfiguration id = st'.fs.read p.config_path ∧
    (st'.db.getLatestConfiguration id).isSome = true ∧
    st'.fs.read p.config_path = some (JsText.jobj cfg) := by
  cases hwv : st.fs.write p.config_path (JsText.jobj cfg) with
  | error e =>
      cases e
      rw [finishSwitch_eq_err _ _ _ _ hwv] at hok
      exact absurd hok (by simp)
  | ok fs2 =>
      rw [finishSwitch_eq_ok _ _ _ _ _ hp hwv] at hok
      simp only [Prod.mk.injEq, true_and] at hok
      subst hok
      have hrd : fs2.read p.config_path = some (JsText.jobj cfg) :=
        fs_write_ok_read st.fs _ _ fs2 hwv
      refine ⟨rfl, ?_, ?_, hrd⟩
      · rw [getLatest_after_append, hrd]
      · rw [getLatest_after_append]; rfl

theorem finishSwitch_err_spec (id : Nat) (p : Profile)
    (cfg : List (String × Json)) (st : SysState) (e : String) (st' : SysState)
    (hp : st.db.profiles.any (fun q => q.id = id) = true)
    (h : finishSwitch id p cfg st = (Except.error e, st')) : st' = st := by
  cases hwv : st.fs.write p.config_path (JsText.jobj cfg) with
  | error e2 =>
      cases e2
      rw [finishSwitch_eq_err _ _ _ _ hwv] at h
      simp only [Prod.mk.injEq] at h
      exact h.2.symm
  | ok fs2 =>
      rw [finishSwitch_eq_ok _ _ _ _ _ hp hwv] at h
      exact absurd h (by simp)

theorem finishSwitchSecond_db (p : Profile) (cfg : List (String × Json))
    (st : SysState) (r : Except String Unit) (st' : SysState)
    (h : finishSwitchSecond p cfg st = (r, st')) : st'.db = st.db := by
  cases hwv : st.fs.write p.config_path (JsText.jobj cfg) with
  | error e =>
      cases e
      rw [finishSwitchSecond_eq_err _ _ _ hwv] at h
      simp only [Prod.mk.injEq] at h
      rw [← h.2]
  | ok fs2 =>
      rw [finishSwitchSecond_eq_ok _ _ _ _ hwv] at h
      simp only [Prod.mk.injEq] at h
      rw [← h.2]

theorem switchProfile_ok_spec (st : SysState) (id now : Nat) (p : Profile)
    (st' : SysState)
    (hgp : st.db.getProfile id = some p)
    (hok : switchProfile id now st = (Except.ok (), st')) :
    st'.settings = some ⟨p.config_path, p.backup_path,
      jsOrUndefined p.mcp_client_path⟩ ∧
    st'.db.getLatestConfiguration id = st'.fs.read p.config_path ∧
    (st'.db.getLatestConfiguration id).isSome = true := by
  have hp := getProfile_any st.db id p hgp
  unfold switchProfile at hok
  simp only [hgp] at hok
  cases hgl : st.db.getLatestConfiguration id with
  | none => simp only [hgl] at hok; exact absurd hok (by simp)
  | some c =>
      simp only [hgl] at hok
      cases c with
      | raw s => exact absurd hok (by simp)
      | jobj parsedFields =>
          cases hlive : st.fs.read p.config_path with
          | none =>
              simp only [hlive] at hok
              obtain ⟨a, b, cc, d⟩ := finishSwitch_ok_spec _ _ _ _ _ hp hok
              exact ⟨a, b, cc⟩
          | some live =>
              simp only [hlive] at hok
              rcases hcb : createBackup p.config_path now st with ⟨r, fsx⟩
              cases r with
              | error e2 =>
                  cases e2
                  simp only [hcb] at hok
                  exact absurd hok (by simp)
              | ok bfp =>
                  simp only [hcb] at hok
                  obtain ⟨a, b, cc, d⟩ :=
                    finishSwitch_ok_spec id p _ { st with fs := fsx } st' hp hok
                  exact ⟨a, b, cc⟩

theorem switchProfile_error_settings (st : SysState) (id now : Nat) (e : String)
    (st' : SysState) (h : switchProfile id now st = (Except.error e, st')) :
    st'.settings = st.settings := by
  unfold switchProfile at h
  cases hgp : st.db.getProfile id with
  | none =>
      simp only [hgp, Prod.mk.injEq] at h
      rw [← h.2]
  | some p =>
      have hp := getProfile_any st.db id p hgp
      simp only [hgp] at h
      cases hgl : st.db.getLatestConfiguration id with
      | none => simp only [hgl, Prod.mk.injEq] at h; rw [← h.2]
      | some c =>
          simp only [hgl] at h
          cases c with
          | raw s => simp only [Prod.mk.injEq] at h; rw [← h.2]
          | jobj parsedFields =>
              cases hlive : st.fs.read p.config_path with
              | none =>
                  simp only [hlive] at h
                  rw [finishSwitch_err_spec _ _ _ _ _ _ hp h]
              | some live =>
                  simp only [hlive] at h
                  rcases hcb : createBackup p.config_path now st with ⟨r, fsx⟩
                  cases r with
                  | error e2 =>
                      cases e2
                      simp only [hcb, Prod.mk.injEq] at h
                      rw [← h.2]
                  | ok bfp =>
                      simp only [hcb] at h
                      rw [finishSwitch_err_spec id p _ { st with fs := fsx } e st' hp h]

theorem switchProfileSecond_db_unchanged (st : SysState) (id now : Nat)
    (r : Except String Unit) (st' : SysState)
    (h : switchProfileSecond id now st = (r, st')) : st'.db = st.db := by
  unfold switchProfileSecond at h
  cases hgp : st.db.getProfile id with
  | none => simp only [hgp, Prod.mk.injEq] at h; rw [← h.2]
  | some p =>
      simp only [hgp] at h
      cases hgl : st.db.getLatestConfiguration id with
      | none => simp only [hgl, Prod.mk.injEq] at h; rw [← h.2]
      | some c =>
          simp only [hgl] at h
          cases c with
          | raw s => simp only [Prod.mk.injEq] at h; rw [← h.2]
          | jobj parsedFields =>
              cases hlive : st.fs.read p.config_path with
              | none =>
                  simp only [hlive] at h
                  exact finishSwitchSecond_db _ _ _ _ _ h
              | some live =>
                  simp only [hlive] at h
                  rcases hcb : createBackup p.config_path now st with ⟨rr, fsx⟩
                  cases rr with
                  | error e2 =>
                      cases e2
                      simp only [hcb, Prod.mk.injEq] at h
                      rw [← h.2]
                  | ok bfp =>
                      simp only [hcb] at h
                      exact finishSwitchSecond_db p _ { st with fs := fsx } r st' h

/-- C4: in the switch-profile handler the Settings Pointer is written only
after the live-file write has succeeded: every failing execution leaves the
stored settings exactly as they were, and every successful execution leaves
them equal to the three paths of the switched-to profile. -/
theorem settingsPointerUpdatedLast (st : SysState) (id now : Nat) :
    (∀ e st', switchProfile id now st = (Except.error e, st') →
      st'.settings = st.settings) ∧
    (∀ p st', st.db.getProfile id = some p →
      switchProfile id now st = (Except.ok (), st') →
      st'.settings = some ⟨p.config_path, p.backup_path,
        jsOrUndefined p.mcp_client_path⟩) :=
  ⟨fun e st' h => switchProfile_error_settings st id now e st' h,
   fun p st' hgp hok => (switchProfile_ok_spec st id now p st' hgp hok).1⟩

theorem settingsPointerUpdatedLast_witness :
    ((switchProfile 1 0
        ⟨⟨[⟨1, "P", "/c/a.json", "/bk", none⟩], [⟨1, JsText.raw "zz", 0⟩], 2, 1⟩,
         ⟨[], []⟩, some ⟨"/x", "/bk", some "/cl"⟩, none⟩).2.settings =
      some ⟨"/x", "/bk", some "/cl"⟩) ∧
    ((switchProfile 1 0
        ⟨⟨[⟨1, "P", "/c/a.json", "/bk", none⟩],
          [⟨1, JsText.jobj [("mcpServers", Json.obj [])], 0⟩], 2, 1⟩,
         ⟨[], []⟩, none, none⟩).2.settings =
      some ⟨"/c/a.json", "/bk", none⟩) :=
  ⟨(settingsPointerUpdatedLast
      ⟨⟨[⟨1, "P", "/c/a.json", "/bk", none⟩], [⟨1, JsText.raw "zz", 0⟩], 2, 1⟩,
       ⟨[], []⟩, some ⟨"/x", "/bk", some "/cl"⟩, none⟩ 1 0).1
      "Invalid configuration format"
      (switchProfile 1 0
        ⟨⟨[⟨1, "P", "/c/a.json", "/bk", none⟩], [⟨1, JsText.raw "zz", 0⟩], 2, 1⟩,
         ⟨[], []⟩, some ⟨"/x", "/bk", some "/cl"⟩, none⟩).2 rfl,
   (settingsPointerUpdatedLast
      ⟨⟨[⟨1, "P", "/c/a.json", "/bk", none⟩],
        [⟨1, JsText.jobj [("mcpServers", Json.obj [])], 0⟩], 2, 1⟩,
       ⟨[], []⟩, none, none⟩ 1 0).2
      ⟨1, "P", "/c/a.json", "/bk", none⟩
      (switchProfile 1 0
        ⟨⟨[⟨1, "P", "/c/a.json", "/bk", none⟩],
          [⟨1, JsText.jobj [("mcpServers", Json.obj [])], 0⟩], 2, 1⟩,
         ⟨[], []⟩, none, none⟩).2 rfl rfl⟩

/-- C3 counterexample: on a profile whose stored snapshot parses to an
object without mcpServers, the second switch-profile handler succeeds, the
written live text is the normalized document with an empty mcpServers, but
the latest stored configuration is still the old snapshot, which differs
from the written text — so the claim fails on this handler version. -/
theorem switchPersistsSnapshot_counterexample :
    ((switchProfileSecond 1 0
        ⟨⟨[⟨1, "P", "/c/a.json", "/bk", none⟩], [⟨1, JsText.jobj [], 0⟩], 2, 1⟩,
         ⟨[], []⟩, none, none⟩).1 = Except.ok ()) ∧
    ((switchProfileSecond 1 0
        ⟨⟨[⟨1, "P", "/c/a.json", "/bk", none⟩], [⟨1, JsText.jobj [], 0⟩], 2, 1⟩,
         ⟨[], []⟩, none, none⟩).2.fs.read "/c/a.json" =
      some (JsText.jobj [("mcpServers", Json.obj [])])) ∧
    ((switchProfileSecond 1 0
        ⟨⟨[⟨1, "P", "/c/a.json", "/bk", none⟩], [⟨1, JsText.jobj [], 0⟩], 2, 1⟩,
         ⟨[], []⟩, none, none⟩).2.db.getLatestConfiguration 1 =
      some (JsText.jobj [])) ∧
    ¬ (some (JsText.jobj ([] : List (String × Json))) =
       some (JsText.jobj [("mcpServers", Json.obj [])])) := by
  refine ⟨rfl, rfl, rfl, ?_⟩
  intro h
  injection h with h1
  injection h1 with h2
  cases h2

/-- C3 amended: in the switch-profile handler version that calls
saveConfiguration (the one with the merge-preserve rule), a successful
switch appends the final written text as a new snapshot, so
getLatestConfiguration afterwards returns exactly the text of the live file
that was written; the second handler version leaves the store untouched and
appends no snapshot. -/
theorem switchPersistsSnapshot (st : SysState) (id now : Nat) :
    (∀ p st', st.db.getProfile id = some p →
      switchProfile id now st = (Except.ok (), st') →
      st'.db.getLatestConfiguration id = st'.fs.read p.config_path ∧
      (st'.db.getLatestConfiguration id).isSome = true) ∧
    (∀ r st', switchProfileSecond id now st = (r, st') → st'.db = st.db) :=
  ⟨fun p st' hgp hok => ⟨(switchProfile_ok_spec st id now p st' hgp hok).2.1,
      (switchProfile_ok_spec st id now p st' hgp hok).2.2⟩,
   fun r st' h => switchProfileSecond_db_unchanged st id now r st' h⟩

theorem switchPersistsSnapshot_witness :
    ((switchProfile 1 0
        ⟨⟨[⟨1, "P", "/c/a.json", "/bk", none⟩],
          [⟨1, JsText.jobj [("mcpServers", Json.obj [])], 0⟩], 2, 1⟩,
         ⟨[], []⟩, none, none⟩).2.db.getLatestConfiguration 1 =
      (switchProfile 1 0
        ⟨⟨[⟨1, "P", "/c/a.json", "/bk", none⟩],
          [⟨1, JsText.jobj [("mcpServers", Json.obj [])], 0⟩], 2, 1⟩,
         ⟨[], []⟩, none, none⟩).2.fs.read "/c/a.json") ∧
    ((switchProfileSecond 1 0
        ⟨⟨[⟨1, "P", "/c/a.json", "/bk", none⟩], [⟨1, JsText.jobj [], 0⟩], 2, 1⟩,
         ⟨[], []⟩, none, none⟩).2.db =
      ⟨[⟨1, "P", "/c/a.json", "/bk", none⟩], [⟨1, JsText.jobj [], 0⟩], 2, 1⟩) :=
  ⟨((switchPersistsSnapshot
      ⟨⟨[⟨1, "P", "/c/a.json", "/bk", none⟩],
        [⟨1, JsText.jobj [("mcpServers", Json.obj [])], 0⟩], 2, 1⟩,
       ⟨[], []⟩, none, none⟩ 1 0).1
      ⟨1, "P", "/c/a.json", "/bk", none⟩
      (switchProfile 1 0
        ⟨⟨[⟨1, "P", "/c/a.json", "/bk", none⟩],
          [⟨1, JsText.jobj [("mcpServers", Json.obj [])], 0⟩], 2, 1⟩,
         ⟨[], []⟩, none, none⟩).2 rfl rfl).1,
   (switchPersistsSnapshot
      ⟨⟨[⟨1, "P", "/c/a.json", "/bk", none⟩], [⟨1, JsText.jobj [], 0⟩], 2, 1⟩,
       ⟨[], []⟩, none, none⟩ 1 0).2
      (switchProfileSecond 1 0
        ⟨⟨[⟨1, "P", "/c/a.json", "/bk", none⟩], [⟨1, JsText.jobj [], 0⟩], 2, 1⟩,
         ⟨[], []⟩, none, none⟩).1
      (switchProfileSecond 1 0
        ⟨⟨[⟨1, "P", "/c/a.json", "/bk", none⟩], [⟨1, JsText.jobj [], 0⟩], 2, 1⟩,
         ⟨[], []⟩, none, none⟩).2 rfl⟩

/-- C10: switching to a profile whose mcp_client_path is null erases any
previously stored claudePath: the handler passes the undefined-coerced
client path into the settings merge and serialization drops the
undefined-valued key, so after a successful switch the stored settings hold
no claudePath entry, whatever they held before. -/
theorem switchNullClientErasesClaudePath (st : SysState) (id now : Nat)
    (p : Profile) (st' : SysState)
    (hgp : st.db.getProfile id = some p)
    (hnull : p.mcp_client_path = none)
    (hok : switchProfile id now st = (Except.ok (), st')) :
    st'.settings = some ⟨p.config_path, p.backup_path, none⟩ := by
  have h := (switchProfile_ok_spec st id now p st' hgp hok).1
  rw [hnull] at h
  exact h

theorem switchNullClientErasesClaudePath_witness :
    (switchProfile 1 0
      ⟨⟨[⟨1, "P", "/c/a.json", "/bk", none⟩],
        [⟨1, JsText.jobj [("mcpServers", Json.obj [])], 0⟩], 2, 1⟩,
       ⟨[], []⟩, some ⟨"/old/config", "/oldbk", some "/old/claude"⟩,
       none⟩).2.settings = some ⟨"/c/a.json", "/bk", none⟩ :=
  switchNullClientErasesClaudePath
    ⟨⟨[⟨1, "P", "/c/a.json", "/bk", none⟩],
      [⟨1, JsText.jobj [("mcpServers", Json.obj [])], 0⟩], 2, 1⟩,
     ⟨[], []⟩, some ⟨"/old/config", "/oldbk", some "/old/claude"⟩, none⟩
    1 0 ⟨1, "P", "/c/a.json", "/bk", none⟩
    (switchProfile 1 0
      ⟨⟨[⟨1, "P", "/c/a.json", "/bk", none⟩],
        [⟨1, JsText.jobj [("mcpServers", Json.obj [])], 0⟩], 2, 1⟩,
       ⟨[], []⟩, some ⟨"/old/config", "/oldbk", some "/old/claude"⟩, none⟩).2
    rfl rfl rfl

/-- C2: when the live file at the config path of the profile exists, a
failing backup makes the whole switch abort with the state unchanged, and
whenever the switch changes the content of the live file the backup call
has succeeded beforehand and its backup file holds the previous live
content. -/
theorem backupBeforeOverwrite (st : SysState) (id now : Nat) (p : Profile)
    (c : JsText)
    (hgp : st.db.getProfile id = some p)
    (hlive : st.fs.read p.config_path = some c) :
    (∀ fsb, createBackup p.config_path now st = (Except.error (), fsb) →
      (switchProfile id now st).1 ≠ Except.ok () ∧
      (switchProfile id now st).2 = st) ∧
    ((switchProfile id now st).2.fs.read p.config_path ≠ some c →
      (createBackup p.config_path now st).1 =
        Except.ok (joinPath (resolvedBackupDir st)
          (backupFileNameFor p.config_path now)) ∧
      (createBackup p.config_path now st).2.read
          (joinPath (resolvedBackupDir st) (backupFileNameFor p.config_path now))
        = some c) := by
  constructor
  · intro fsb hcb
    unfold switchProfile
    simp only [hgp]
    cases hgl : st.db.getLatestConfiguration id with
    | none => exact ⟨by simp, rfl⟩
    | some cc =>
        cases cc with
        | raw s => exact ⟨by simp, rfl⟩
        | jobj parsedFields =>
            simp only [hlive, hcb]
            exact ⟨by simp, by simp⟩
  · intro hne
    rcases hcb : createBackup p.config_path now st with ⟨r, fsx⟩
    cases r with
    | error e =>
        cases e
        exfalso
        apply hne
        have hsnd : (switchProfile id now st).2 = st := by
          unfold switchProfile
          simp only [hgp]
          cases hgl : st.db.getLatestConfiguration id with
          | none => rfl
          | some cc =>
              cases cc with
              | raw s => rfl
              | jobj parsedFields => simp only [hlive, hcb]
        rw [hsnd]
        exact hlive
    | ok bfp =>
        obtain ⟨h1, h2, h3, h4⟩ := createBackup_ok_spec _ _ _ _ _ hcb
        subst h1
        rw [hlive] at h2
        exact ⟨rfl, by simpa using h2⟩

theorem backupBeforeOverwrite_witness :
    (((switchProfile 1 7
        ⟨⟨[⟨1, "P", "/c/a.json", "/bk", none⟩],
          [⟨1, JsText.jobj [("mcpServers", Json.obj [])], 0⟩], 2, 1⟩,
         ⟨[("/c/a.json", JsText.raw "live")], ["/bk/a_7.json"]⟩,
         some ⟨"/c/a.json", "/bk", none⟩, none⟩).1 ≠ Except.ok ()) ∧
      ((switchProfile 1 7
        ⟨⟨[⟨1, "P", "/c/a.json", "/bk", none⟩],
          [⟨1, JsText.jobj [("mcpServers", Json.obj [])], 0⟩], 2, 1⟩,
         ⟨[("/c/a.json", JsText.raw "live")], ["/bk/a_7.json"]⟩,
         some ⟨"/c/a.json", "/bk", none⟩, none⟩).2 =
        ⟨⟨[⟨1, "P", "/c/a.json", "/bk", none⟩],
          [⟨1, JsText.jobj [("mcpServers", Json.obj [])], 0⟩], 2, 1⟩,
         ⟨[("/c/a.json", JsText.raw "live")], ["/bk/a_7.json"]⟩,
         some ⟨"/c/a.json", "/bk", none⟩, none⟩)) ∧
    (((createBackup "/c/a.json" 7
        ⟨⟨[⟨1, "P", "/c/a.json", "/bk", none⟩],
          [⟨1, JsText.jobj [("mcpServers", Json.obj [("s", Json.obj [])])], 0⟩],
          2, 1⟩,
         ⟨[("/c/a.json", JsText.jobj [("mcpServers", Json.obj [])])], []⟩,
         some ⟨"/c/a.json", "/bk", none⟩, none⟩).1 =
      Except.ok (joinPath
        (resolvedBackupDir
          ⟨⟨[⟨1, "P", "/c/a.json", "/bk", none⟩],
            [⟨1, JsText.jobj [("mcpServers", Json.obj [("s", Json.obj [])])], 0⟩],
            2, 1⟩,
           ⟨[("/c/a.json", JsText.jobj [("mcpServers", Json.obj [])])], []⟩,
           some ⟨"/c/a.json", "/bk", none⟩, none⟩)
        (backupFileNameFor "/c/a.json" 7))) ∧
      ((createBackup "/c/a.json" 7
        ⟨⟨[⟨1, "P", "/c/a.json", "/bk", none⟩],
          [⟨1, JsText.jobj [("mcpServers", Json.obj [("s", Json.obj [])])], 0⟩],
          2, 1⟩,
         ⟨[("/c/a.json", JsText.jobj [("mcpServers", Json.obj [])])], []⟩,
         some ⟨"/c/a.json", "/bk", none⟩, none⟩).2.read
          (joinPath
            (resolvedBackupDir
              ⟨⟨[⟨1, "P", "/c/a.json", "/bk", none⟩],
                [⟨1, JsText.jobj [("mcpServers", Json.obj [("s", Json.obj [])])], 0⟩],
                2, 1⟩,
               ⟨[("/c/a.json", JsText.jobj [("mcpServers", Json.obj [])])], []⟩,
               some ⟨"/c/a.json", "/bk", none⟩, none⟩)
            (backupFileNameFor "/c/a.json" 7)) =
        some (JsText.jobj [("mcpServers", Json.obj [])]))) :=
  ⟨(backupBeforeOverwrite
      ⟨⟨[⟨1, "P", "/c/a.json", "/bk", none⟩],
        [⟨1, JsText.jobj [("mcpServers", Json.obj [])], 0⟩], 2, 1⟩,
       ⟨[("/c/a.json", JsText.raw "live")], ["/bk/a_7.json"]⟩,
       some ⟨"/c/a.json", "/bk", none⟩, none⟩ 1 7
      ⟨1, "P", "/c/a.json", "/bk", none⟩ (JsText.raw "live") rfl rfl).1
      ⟨[("/c/a.json", JsText.raw "live")], ["/bk/a_7.json"]⟩ rfl,
   (backupBeforeOverwrite
      ⟨⟨[⟨1, "P", "/c/a.json", "/bk", none⟩],
        [⟨1, JsText.jobj [("mcpServers", Json.obj [("s", Json.obj [])])], 0⟩],
        2, 1⟩,
       ⟨[("/c/a.json", JsText.jobj [("mcpServers", Json.obj [])])], []⟩,
       some ⟨"/c/a.json", "/bk", none⟩, none⟩ 1 7
      ⟨1, "P", "/c/a.json", "/bk", none⟩
      (JsText.jobj [("mcpServers", Json.obj [])]) rfl rfl).2
      (by
        intro h
        have h2 := congrArg
          (fun o => match o with
            | some (JsText.jobj fields) => jsKeysLength (jsObjGetD fields "mcpServers")
            | some (JsText.raw s) => 0
            | none => 0) h
        exact absurd h2 (by decide))⟩

/-- C1: merge-preserve rule of the first switch-profile handler.  For a
successful switch where the live file exists and parses: when the existing
mcpServers value is truthy with at least one key and the normalized incoming
document has zero keys in its mcpServers, the written live file carries the
incoming document with the existing mcpServers value substituted in; when
the normalized incoming mcpServers has at least one key, the written live
file is exactly the normalized stored document, whatever the live file held
before. -/
theorem switchMergePreserve (st : SysState) (id now : Nat) (p : Profile)
    (storedFields existingFields : List (String × Json)) (st' : SysState)
    (hgp : st.db.getProfile id = some p)
    (hgl : st.db.getLatestConfiguration id = some (JsText.jobj storedFields))
    (hlive : st.fs.read p.config_path = some (JsText.jobj existingFields))
    (hok : switchProfile id now st = (Except.ok (), st')) :
    (∀ ev, assocFind existingFields "mcpServers" = some ev →
      jsTruthy ev = true → 0 < jsKeysLength ev →
      jsKeysLength (jsObjGetD (ensureMcpServers storedFields) "mcpServers") = 0 →
      st'.fs.read p.config_path =
        some (JsText.jobj
          (jsObjInsert (ensureMcpServers storedFields) "mcpServers" ev))) ∧
    (0 < jsKeysLength (jsObjGetD (ensureMcpServers storedFields) "mcpServers") →
      st'.fs.read p.config_path =
        some (JsText.jobj (ensureMcpServers storedFields))) := by
  have hp := getProfile_any st.db id p hgp
  unfold switchProfile at hok
  simp only [hgp, hgl, hlive] at hok
  rcases hcb : createBackup p.config_path now st with ⟨r, fsx⟩
  cases r with
  | error e =>
      cases e
      simp only [hcb] at hok
      exact absurd hok (by simp)
  | ok bfp =>
      simp only [hcb] at hok
      have hrd : fsx.read p.config_path = some (JsText.jobj existingFields) := by
        rw [createBackup_ok_read_source _ _ _ _ _ hcb, hlive]
      simp only [hrd] at hok
      have hfin :=
        (finishSwitch_ok_spec id p _ { st with fs := fsx } st' hp hok).2.2.2
      constructor
      · intro ev hev htr hkeys hempty
        rw [hfin]
        simp only [mergePreserve, hev]
        rw [if_pos ⟨htr, hkeys, hempty⟩]
      · intro hpos
        rw [hfin]
        cases hev : assocFind existingFields "mcpServers" with
        | none => simp only [mergePreserve, hev]
        | some ev =>
            simp only [mergePreserve, hev]
            rw [if_neg (fun hc => by
              have h0 := hc.2.2
              rw [h0] at hpos
              exact Nat.lt_irrefl 0 hpos)]

theorem switchMergePreserve_witness :
    (switchProfile 1 7
      ⟨⟨[⟨1, "P", "/c/a.json", "/bk", none⟩],
        [⟨1, JsText.jobj [("mcpServers", Json.obj [])], 0⟩], 2, 1⟩,
       ⟨[("/c/a.json",
          JsText.jobj [("mcpServers", Json.obj [("a", Json.obj [])])])], []⟩,
       some ⟨"/c/a.json", "/bk", none⟩, none⟩).2.fs.read "/c/a.json" =
      some (JsText.jobj
        (jsObjInsert (ensureMcpServers [("mcpServers", Json.obj [])])
          "mcpServers" (Json.obj [("a", Json.obj [])]))) :=
  (switchMergePreserve
    ⟨⟨[⟨1, "P", "/c/a.json", "/bk", none⟩],
      [⟨1, JsText.jobj [("mcpServers", Json.obj [])], 0⟩], 2, 1⟩,
     ⟨[("/c/a.json",
        JsText.jobj [("mcpServers", Json.obj [("a", Json.obj [])])])], []⟩,
     some ⟨"/c/a.json", "/bk", none⟩, none⟩ 1 7
    ⟨1, "P", "/c/a.json", "/bk", none⟩
    [("mcpServers", Json.obj [])]
    [("mcpServers", Json.obj [("a", Json.obj [])])]
    (switchProfile 1 7
      ⟨⟨[⟨1, "P", "/c/a.json", "/bk", none⟩],
        [⟨1, JsText.jobj [("mcpServers", Json.obj [])], 0⟩], 2, 1⟩,
       ⟨[("/c/a.json",
          JsText.jobj [("mcpServers", Json.obj [("a", Json.obj [])])])], []⟩,
       some ⟨"/c/a.json", "/bk", none⟩, none⟩).2
    rfl rfl rfl rfl).1
    (Json.obj [("a", Json.obj [])]) rfl rfl (by decide) rfl
